import Mathlib

/-!
Verification development for the journaling single-page client (`src/App.js`).

The JavaScript source is shallowly embedded: JS runtime values are modelled by
`JsValue` (with JS truthiness, property access, `&&` / `||` and `String(...)`
coercion), an HTTP exchange is modelled by an `HttpResponse` record carrying the
transport status, the raw body text and the outcome of `JSON.parse` on that
text, and each React event handler becomes a pure state-transition function
from the component state plus the outcomes of its external effects (file reads,
network transports) to the new state together with the ordered list of I/O
effects it performed.
-/

set_option maxHeartbeats 1000000

namespace MentalJournal

/-- Model of a JavaScript runtime value as it can appear in this program:
`undefined`, `null`, booleans, numbers (restricted to integers — every number
this code manipulates is an integer), strings, arrays and plain objects.
Objects are field lists; property access returns the first binding. -/
inductive JsValue where
  | undefined
  | null
  | bool (b : Bool)
  | num (n : Int)
  | str (s : String)
  | arr (elems : List JsValue)
  | obj (fields : List (String × JsValue))

/-- JS truthiness: `undefined`, `null`, `false`, `0` and `""` are falsy;
every array and every object is truthy. -/
def jsTruthy : JsValue → Bool
  | .undefined => false
  | .null => false
  | .bool b => b
  | .num n => n != 0
  | .str s => s != ""
  | .arr _ => true
  | .obj _ => true

/-- Property access `v.key` (also `v?.key`): a field lookup on objects,
`undefined` on every other value (no string/array built-in properties are
involved in this program). -/
def jsGet (v : JsValue) (key : String) : JsValue :=
  match v with
  | .obj fields =>
      match fields.lookup key with
      | some w => w
      | none => .undefined
  | _ => .undefined

/-- JS short-circuit `a || b`. -/
def jsOr (a b : JsValue) : JsValue := if jsTruthy a then a else b

/-- JS short-circuit `a && b`. -/
def jsAnd (a b : JsValue) : JsValue := if jsTruthy a then b else a

mutual

/-- JS `String(v)` coercion (`new Error(m)` stores `String(m)` as message). -/
def jsString : JsValue → String
  | .undefined => "undefined"
  | .null => "null"
  | .bool b => cond b "true" "false"
  | .num n => toString n
  | .str s => s
  | .arr elems => jsStringArray elems
  | .obj _ => "[object Object]"

/-- Array-to-string coercion: elements joined with `","`, with `null` and
`undefined` elements rendering as the empty string. -/
def jsStringArray : List JsValue → String
  | [] => ""
  | [.undefined] => ""
  | [.null] => ""
  | [v] => jsString v
  | .undefined :: rest => "," ++ jsStringArray rest
  | .null :: rest => "," ++ jsStringArray rest
  | v :: rest => jsString v ++ "," ++ jsStringArray rest

end

/-- Model of one settled HTTP exchange as `apiFetchAbsolute` observes it:
`ok` and `status` are the transport-level outcome, `text` is
`await res.text()`, and `parse` is the outcome of `JSON.parse text`
(`some v` when parsing succeeds with value `v`, `none` when it throws). -/
structure HttpResponse where
  ok : Bool
  status : Nat
  text : String
  parse : Option JsValue

/-- The `data` local of `apiFetchAbsolute`:
`data = text ? JSON.parse(text) : null` with the `catch` giving `data = text`. -/
def responseData (res : HttpResponse) : JsValue :=
  if res.text = "" then .null
  else
    match res.parse with
    | some v => v
    | none => .str res.text

/-- The failure message of `apiFetchAbsolute`:
`(data && data.message) || text || ("Request failed: " + res.status)`,
coerced to a string by the `Error` constructor. -/
def failMessage (data : JsValue) (text : String) (status : Nat) : String :=
  jsString (jsOr (jsOr (jsAnd data (jsGet data "message")) (.str text))
    (.str ("Request failed: " ++ toString status)))

/-- `apiFetchAbsolute` after the transport resolved to a response: reads the
body text, opportunistically JSON-parses it, throws on a non-ok status with
`failMessage`, and otherwise returns the parsed (or fallback) value. -/
def apiFetchAbsolute (res : HttpResponse) : Except String JsValue :=
  let data := responseData res
  if !res.ok then .error (failMessage data res.text res.status)
  else .ok data

/-- A whole adapter call: the transport either rejects (`Except.error` with the
rejection's message) or resolves to a response handed to `apiFetchAbsolute`. -/
def callApi (transport : Except String HttpResponse) : Except String JsValue :=
  match transport with
  | .error m => .error m
  | .ok res => apiFetchAbsolute res

/-- `requireEndpoint(url, name)`: throws `Missing <name> URL in .env` when the
configured value is falsy (`undefined` or empty), else returns it. -/
def requireEndpoint (url : Option String) (name : String) : Except String String :=
  if url.getD "" = "" then .error ("Missing " ++ name ++ " URL in .env")
  else .ok (url.getD "")

/-- The `onload` body of `readFileAsBase64`: with
`result = String(reader.result || "")`, computes `commaIdx = result.indexOf(",")`
and resolves `commaIdx >= 0 ? result.slice(commaIdx + 1) : result`. -/
def readResultToBase64 (result : String) : String :=
  let commaIdx : Int :=
    match result.data.findIdx? (fun c => c = ',') with
    | some i => (i : Int)
    | none => -1
  if 0 ≤ commaIdx then String.mk (result.data.drop (commaIdx.toNat + 1))
  else result

/-- `readFileAsBase64(file)` as a function of the read outcome: the reader
either errors (rejecting with the fixed message `Failed to read file`) or
loads with `reader.result` being a string or `null`. -/
def readFileAsBase64 (readOutcome : Except Unit (Option String)) :
    Except String String :=
  match readOutcome with
  | .error _ => .error "Failed to read file"
  | .ok r => .ok (readResultToBase64 (r.getD ""))

/-- Whether a JS value is an array (`Array.isArray`). -/
def isArray : JsValue → Bool
  | .arr _ => true
  | _ => false

/-- The list-shape normalization of `handleLoadEntries`:
`Array.isArray(data) ? data : data?.entries || data?.value || []`. -/
def normalizeList (data : JsValue) : JsValue :=
  if isArray data then data
  else jsOr (jsOr (jsGet data "entries") (jsGet data "value")) (.arr [])

/-- The selected file (`File` object) as the handlers use it: `name` and
`type` (the latter possibly empty, as for a file with no MIME type). -/
structure FileInfo where
  name : String
  type : String

/-- The component state touched by the entry-orchestration handlers.
`uploadedFileUrl`, `uploadedBlobName` and `entries` hold whatever JS value the
corresponding `set…` call stored (initially `""`, `""` and `[]`). -/
structure AppState where
  userId : String
  text : String
  visibility : String
  file : Option FileInfo
  uploadedFileUrl : JsValue
  uploadedBlobName : JsValue
  entries : JsValue
  loadingEntries : Bool
  editingId : Option String
  editText : String
  editVisibility : String
  status : String
  error : String

/-- JS `String.prototype.trim()`: strips leading and trailing whitespace. -/
def jsTrim (s : String) : String :=
  String.mk
    (((s.data.dropWhile Char.isWhitespace).reverse.dropWhile
      Char.isWhitespace).reverse)

/-- `clearMessages()`. -/
def clearMessages (s : AppState) : AppState := { s with status := "", error := "" }

/-- The `catch` block shared by `handleUpload`, `handleCreateEntry` and
`handleLoadEntries`: `setError(e.message); setStatus("")`. -/
def setCatch (s : AppState) (m : String) : AppState := { s with error := m, status := "" }

/-- String-level JS `a || b` (both operands strings). -/
def jsOrStr (a b : String) : String := if a = "" then b else a

/-- JS `String(e)` for `e = new Error(m)`: `"Error"` when the message is
empty, `"Error: " + m` otherwise. -/
def errorToString (m : String) : String :=
  if m = "" then "Error" else "Error: " ++ m

/-- The `catch` block of `handleUpdate` and `handleDelete`:
`setError(e.message || String(e)); setStatus("")`. -/
def setCatchUD (s : AppState) (m : String) : AppState :=
  { s with error := jsOrStr m (errorToString m), status := "" }

/-- `cancelEdit()`. -/
def cancelEdit (s : AppState) : AppState :=
  { s with editingId := none, editText := "", editVisibility := "private" }

/-- One I/O effect a handler performs, in order: starting the local file read,
or issuing a network request to a URL with a JSON body. -/
inductive Effect where
  | fileRead
  | networkCall (url : String) (body : List (String × JsValue))

/-- Whether an effect is a network request. -/
def Effect.isNetworkCall : Effect → Bool
  | .networkCall _ _ => true
  | _ => false

/-- The configured endpoint URLs (`ENDPOINTS`), each possibly unset. -/
structure Endpoints where
  upload : Option String
  create : Option String
  get : Option String
  update : Option String
  del : Option String

/-- `canUpload`: `!!userId && !!file`. -/
def canUpload (s : AppState) : Bool := s.userId != "" && s.file.isSome

/-- The upload request payload `{userId, filename, filetype, fileBase64}`
(with `file.type || "application/octet-stream"`). -/
def uploadPayload (s : AppState) (f : FileInfo) (base64 : String) :
    List (String × JsValue) :=
  [("userId", .str s.userId),
   ("filename", .str f.name),
   ("filetype", .str (jsOrStr f.type "application/octet-stream")),
   ("fileBase64", .str base64)]

/-- External outcomes consumed by one `handleUpload` invocation. -/
structure UploadEnv where
  endpoints : Endpoints
  readOutcome : Except Unit (Option String)
  uploadTransport : Except String HttpResponse

/-- `handleUpload`: clears messages, bails out when `!canUpload`, reads the
file, then posts the payload to the upload endpoint and stores
`result.blobName || ""` and `result.fileUrl || ""`; every thrown failure is
caught and turned into the error string. -/
def handleUpload (s : AppState) (env : UploadEnv) : AppState × List Effect :=
  let s := clearMessages s
  if !canUpload s then (s, [])
  else
    let s := { s with status := "Uploading file to Blob via Logic App..." }
    match readFileAsBase64 env.readOutcome with
    | .error m => (setCatch s m, [.fileRead])
    | .ok base64 =>
      match requireEndpoint env.endpoints.upload "REACT_APP_UPLOAD_URL" with
      | .error m => (setCatch s m, [.fileRead])
      | .ok url =>
        let body := match s.file with
          | some f => uploadPayload s f base64
          | none => []
        match callApi env.uploadTransport with
        | .error m => (setCatch s m, [.fileRead, .networkCall url body])
        | .ok result =>
          ({ s with
              uploadedBlobName := jsOr (jsGet result "blobName") (.str ""),
              uploadedFileUrl := jsOr (jsGet result "fileUrl") (.str ""),
              status := "Upload complete ✅" },
           [.fileRead, .networkCall url body])

/-- The create-entry payload: `{userId, text: text.trim(), visibility,
uploadDate}` plus, only when `uploadedFileUrl` is truthy, the spread media
fields `{filename: file?.name || "", filetype: file?.type || "",
fileUrl: uploadedFileUrl}`. -/
def createPayload (s : AppState) (now : String) : List (String × JsValue) :=
  [("userId", .str s.userId),
   ("text", .str (jsTrim s.text)),
   ("visibility", .str s.visibility),
   ("uploadDate", .str now)] ++
  (if jsTruthy s.uploadedFileUrl then
    [("filename", .str (match s.file with | some f => f.name | none => "")),
     ("filetype", .str (match s.file with | some f => f.type | none => "")),
     ("fileUrl", s.uploadedFileUrl)]
   else [])

/-- External outcomes consumed by one `handleLoadEntries` invocation. -/
structure ListEnv where
  endpoints : Endpoints
  getTransport : Except String HttpResponse

/-- `handleLoadEntries`: clears messages, requires a user id, posts
`{userId}` to the get endpoint, normalizes the response shape and replaces
the entry list; the `finally` block always resets `loadingEntries`. -/
def handleLoadEntries (s : AppState) (env : ListEnv) : AppState × List Effect :=
  let s := clearMessages s
  let step : AppState × List Effect :=
    if s.userId = "" then (setCatch s "userId is required", [])
    else
      let s := { s with loadingEntries := true, status := "Loading entries..." }
      match requireEndpoint env.endpoints.get "REACT_APP_GET_URL" with
      | .error m => (setCatch s m, [])
      | .ok url =>
        let body : List (String × JsValue) := [("userId", .str s.userId)]
        match callApi env.getTransport with
        | .error m => (setCatch s m, [.networkCall url body])
        | .ok data =>
          ({ s with entries := normalizeList data, status := "Entries loaded ✅" },
           [.networkCall url body])
  ({ step.1 with loadingEntries := false }, step.2)

/-- External outcomes consumed by one `handleCreateEntry` invocation
(`now` is `toIsoNow()`; `listTransport` feeds the post-create re-list). -/
structure CreateEnv where
  endpoints : Endpoints
  createTransport : Except String HttpResponse
  listTransport : Except String HttpResponse
  now : String

/-- `handleCreateEntry`: validates the user id and trimmed text, posts
`createPayload` to the create endpoint, then clears the text field, clears the
file/upload state only when an uploaded file was used, and re-lists; every
thrown failure is caught into the error string. -/
def handleCreateEntry (s : AppState) (env : CreateEnv) : AppState × List Effect :=
  let s := clearMessages s
  if s.userId = "" then (setCatch s "userId is required", [])
  else if jsTrim s.text = "" then (setCatch s "Journal text is required", [])
  else
    let s := { s with status := "Creating journal entry in Cosmos DB..." }
    let body := createPayload s env.now
    match requireEndpoint env.endpoints.create "REACT_APP_CREATE_URL" with
    | .error m => (setCatch s m, [])
    | .ok url =>
      match callApi env.createTransport with
      | .error m => (setCatch s m, [.networkCall url body])
      | .ok _ =>
        let s := { s with status := "Entry created ✅", text := "" }
        let s :=
          if jsTruthy s.uploadedFileUrl then
            { s with file := none, uploadedFileUrl := .str "", uploadedBlobName := .str "" }
          else s
        let rest := handleLoadEntries s
          { endpoints := env.endpoints, getTransport := env.listTransport }
        (rest.1, .networkCall url body :: rest.2)

/-- The update payload, carrying the identifier under both keys:
`{id, entryId, text: editText, visibility: editVisibility}`. -/
def updatePayload (entryId : String) (editText editVisibility : String) :
    List (String × JsValue) :=
  [("id", .str entryId),
   ("entryId", .str entryId),
   ("text", .str editText),
   ("visibility", .str editVisibility)]

/-- External outcomes consumed by one `handleUpdate` invocation. -/
structure UpdateEnv where
  endpoints : Endpoints
  updateTransport : Except String HttpResponse
  listTransport : Except String HttpResponse

/-- `handleUpdate(entryId)`: requires a truthy entry id, posts the dual-key
payload to the update endpoint, exits edit mode and re-lists; its `catch`
sets `e.message || String(e)`. -/
def handleUpdate (s : AppState) (entryId : Option String) (env : UpdateEnv) :
    AppState × List Effect :=
  let s := clearMessages s
  if entryId.getD "" = "" then (setCatchUD s "Missing entryId", [])
  else
    let eid := entryId.getD ""
    let s := { s with status := "Updating entry..." }
    match requireEndpoint env.endpoints.update "REACT_APP_UPDATE_URL" with
    | .error m => (setCatchUD s m, [])
    | .ok url =>
      let body := updatePayload eid s.editText s.editVisibility
      match callApi env.updateTransport with
      | .error m => (setCatchUD s m, [.networkCall url body])
      | .ok _ =>
        let s := cancelEdit { s with status := "Entry updated ✅" }
        let rest := handleLoadEntries s
          { endpoints := env.endpoints, getTransport := env.listTransport }
        (rest.1, .networkCall url body :: rest.2)

/-- The delete payload `{id, entryId}`. -/
def deletePayload (entryId : String) : List (String × JsValue) :=
  [("id", .str entryId), ("entryId", .str entryId)]

/-- External outcomes consumed by one `handleDelete` invocation. -/
structure DeleteEnv where
  endpoints : Endpoints
  deleteTransport : Except String HttpResponse
  listTransport : Except String HttpResponse

/-- `handleDelete(entryId)`: requires a truthy entry id, posts the dual-key
payload to the delete endpoint and re-lists; its `catch` sets
`e.message || String(e)`. -/
def handleDelete (s : AppState) (entryId : Option String) (env : DeleteEnv) :
    AppState × List Effect :=
  let s := clearMessages s
  if entryId.getD "" = "" then (setCatchUD s "Missing entryId", [])
  else
    let eid := entryId.getD ""
    let s := { s with status := "Deleting entry..." }
    match requireEndpoint env.endpoints.del "REACT_APP_DELETE_URL" with
    | .error m => (setCatchUD s m, [])
    | .ok url =>
      let body := deletePayload eid
      match callApi env.deleteTransport with
      | .error m => (setCatchUD s m, [.networkCall url body])
      | .ok _ =>
        let s := { s with status := "Entry deleted ✅" }
        let rest := handleLoadEntries s
          { endpoints := env.endpoints, getTransport := env.listTransport }
        (rest.1, .networkCall url body :: rest.2)

/-- One mood record `{ date, mood, notes }`. -/
structure MoodRecord where
  date : String
  mood : Int
  notes : String

/-- The mood-history updater of `addMoodEntry`:
`(prev) => [item, ...prev].slice(0, 14)`. -/
def moodPush (prev : List MoodRecord) (item : MoodRecord) : List MoodRecord :=
  (item :: prev).take 14

/-- `addMoodEntry()`: builds `{date: toIsoNow(), mood, notes: moodNotes.trim()}`,
pushes it through `moodPush` and resets the notes field (second component). -/
def addMoodEntry (history : List MoodRecord) (mood : Int) (moodNotes : String)
    (now : String) : List MoodRecord × String :=
  (moodPush history { date := now, mood := mood, notes := jsTrim moodNotes }, "")

/-- A whole sequence of mood appends, oldest first, starting from the empty
history. -/
def moodFold (items : List MoodRecord) : List MoodRecord :=
  items.foldl moodPush []

/-- The shared grounding-breathing prompt. -/
def grounding : String :=
  "Try this quick reset: inhale 4s, hold 4s, exhale 6s — repeat 3 times."

/-- The `low` prompt list of `promptsByMood`. -/
def lowPrompts : List String :=
  ["That sounds heavy. What’s one small thing that feels manageable right now?",
   "If a friend felt this way, what would you say to them?",
   grounding]

/-- The `neutral` prompt list of `promptsByMood`. -/
def neutralPrompts : List String :=
  ["What do you think triggered that feeling today?",
   "What’s one thing you want to carry forward from today — and one thing to release?",
   grounding]

/-- The `good` prompt list of `promptsByMood`. -/
def goodPrompts : List String :=
  ["That’s a positive moment — what helped you get here?",
   "How can you make it easier to feel this way again tomorrow?",
   "Would you like to set a small intention for the next 24 hours?"]

/-- `moodLabel`: `mood <= 2 ? "low" : mood === 3 ? "neutral" : "good"`. -/
def moodLabel (mood : Int) : String :=
  if mood ≤ 2 then "low" else if mood = 3 then "neutral" else "good"

/-- The `promptsByMood` lookup table keyed by the mood label. -/
def promptsByMood (label : String) : List String :=
  if label = "low" then lowPrompts
  else if label = "neutral" then neutralPrompts
  else goodPrompts

/-- The 120-character truncation used for the context and closing lines:
`t.slice(0, 120)` plus `"…"` when the text is longer than 120. -/
def truncate120 (t : String) : String :=
  t.take 120 ++ (if t.length > 120 then "…" else "")

/-- `buildMockReply({mood, userText, lastEntryText})`: the preamble naming the
score, the three numbered prompts of the mood bucket, the optional context
line for a non-empty last entry, the optional closing line for a non-empty
user message; blank lines are dropped (`filter(Boolean)`) and the rest joined
with newlines. -/
def buildMockReply (mood : Int) (userText lastEntryText : String) : String :=
  let suggestions := promptsByMood (moodLabel mood)
  let contextBit :=
    if lastEntryText ≠ "" then
      "I also noticed your recent entry mentions: “" ++ truncate120 lastEntryText ++ "”"
    else ""
  let lines :=
    ["Thanks for sharing. Based on your mood (" ++ toString mood ++
      "/5), here are a few gentle reflections:"]
    ++ suggestions.mapIdx (fun i sug => toString (i + 1) ++ ". " ++ sug)
    ++ [contextBit,
        if userText ≠ "" then
          "If you want, tell me more about: “" ++ truncate120 userText ++ "”"
        else ""]
  String.intercalate "\n" (lines.filter (fun l => l ≠ ""))

/-! ## Helper lemmas -/

/-- A comma-free character list makes the comma search miss. -/
theorem findIdx_comma_none (l : List Char) (h : ∀ c ∈ l, c ≠ ',') :
    l.findIdx? (fun c => c = ',') = none := by
  rw [List.findIdx?_eq_none_iff]
  intro c hc
  simpa using h c hc

/-- Searching `a ++ ',' :: b` for a comma, with `a` comma-free, finds the
separator at position `i + a.length` for any accumulator start `i`. -/
theorem findIdx_comma_split (a : List Char) (b : List Char)
    (h : ∀ c ∈ a, c ≠ ',') :
    ∀ i, List.findIdx? (fun c => c = ',') (a ++ ',' :: b) i = some (i + a.length) := by
  induction a with
  | nil => intro i; simp [List.findIdx?_cons]
  | cons c rest ih =>
    intro i
    have hc : c ≠ ',' := h c (by simp)
    rw [List.cons_append, List.findIdx?_cons]
    rw [ih (fun d hd => h d (by simp [hd])) (i + 1)]
    simp [hc]
    omega

/-- Truncating an already right-truncated append truncates the plain append. -/
theorem take_append_take {α : Type} (xs ys : List α) (n : Nat) :
    (xs ++ ys.take n).take n = (xs ++ ys).take n := by
  rw [List.take_append_eq_append_take, List.take_append_eq_append_take,
    List.take_take]
  rw [inf_eq_left.mpr (Nat.sub_le n xs.length)]

/-- Folding `moodPush` from any history of at most 14 records yields the
14-truncated reversed-append. -/
theorem moodPush_foldl (items : List MoodRecord) :
    ∀ prev : List MoodRecord, prev.length ≤ 14 →
      items.foldl moodPush prev = (items.reverse ++ prev).take 14 := by
  induction items with
  | nil => intro prev h; simp [List.take_of_length_le h]
  | cons i rest ih =>
    intro prev h
    rw [List.foldl_cons]
    rw [ih (moodPush prev i) (by simp [moodPush, List.length_take])]
    rw [show moodPush prev i = (i :: prev).take 14 from rfl]
    rw [take_append_take]
    simp [List.append_assoc]

/-! ## Claim theorems -/

/-- C1 (amended): every non-success response makes the adapter raise,
regardless of whether the body is valid JSON; the raised message is the string
coercion of the parsed body's `message` field when the body's value and that
field are both truthy, else the raw response text when it is non-empty, else
`Request failed: <status>`; a success response never raises. (Amendment: the
source selects the `message` field by JS truthiness, not by mere presence — a
present but falsy field, e.g. the empty string, is skipped in favour of the
raw body text.) -/
theorem apiFetch_error_policy (res : HttpResponse) :
    (res.ok = true → apiFetchAbsolute res = .ok (responseData res)) ∧
    (res.ok = false →
      ((jsTruthy (responseData res) &&
          jsTruthy (jsGet (responseData res) "message")) = true →
        apiFetchAbsolute res =
          .error (jsString (jsGet (responseData res) "message"))) ∧
      ((jsTruthy (responseData res) &&
          jsTruthy (jsGet (responseData res) "message")) = false →
        res.text ≠ "" → apiFetchAbsolute res = .error res.text) ∧
      (res.text = "" →
        apiFetchAbsolute res =
          .error ("Request failed: " ++ toString res.status))) := by
  refine ⟨fun hok => by simp [apiFetchAbsolute, hok], fun hok => ⟨?_, ?_, ?_⟩⟩
  · intro htr
    rw [Bool.and_eq_true] at htr
    simp [apiFetchAbsolute, hok, failMessage, jsAnd, jsOr, htr.1, htr.2]
  · intro htr htext
    have hs : jsTruthy (.str res.text) = true := by simp [jsTruthy, htext]
    cases h1 : jsTruthy (responseData res) with
    | false =>
      simp [apiFetchAbsolute, hok, failMessage, jsAnd, jsOr, h1, hs, jsString]
    | true =>
      have h2 : jsTruthy (jsGet (responseData res) "message") = false := by
        rw [h1] at htr; simpa using htr
      simp [apiFetchAbsolute, hok, failMessage, jsAnd, jsOr, h1, h2, hs,
        jsString]
  · intro htext
    simp [apiFetchAbsolute, hok, failMessage, responseData, htext, jsAnd,
      jsOr, jsGet, jsTruthy, jsString]

/-- Concrete failed response whose JSON body carries a truthy `message`. -/
def resBoom : HttpResponse :=
  { ok := false, status := 400, text := "\x7b\"message\":\"boom\"\x7d",
    parse := some (.obj [("message", .str "boom")]) }

/-- Witness for the error policy: the failed `message: "boom"` response
raises with message `boom`. -/
theorem apiFetch_error_policy_witness :
    apiFetchAbsolute resBoom = .error "boom" :=
  ((apiFetch_error_policy resBoom).2 rfl).1 rfl

/-- Concrete failed response whose JSON body has a present but empty
`message` field. -/
def resEmptyMessage : HttpResponse :=
  { ok := false, status := 400, text := "\x7b\"message\":\"\"\x7d",
    parse := some (.obj [("message", .str "")]) }

/-- C1 counterexample: on a failed response whose parsed body has a `message`
field that is present (with value `""`), the raised message is the raw body
text, not that field's value. -/
theorem apiFetch_error_policy_counterexample :
    apiFetchAbsolute resEmptyMessage = .error "\x7b\"message\":\"\"\x7d" ∧
    apiFetchAbsolute resEmptyMessage ≠ .error "" := by
  constructor
  · simp [apiFetchAbsolute, resEmptyMessage, failMessage, responseData,
      jsAnd, jsOr, jsGet, jsTruthy, jsString]
  · intro h
    rw [show apiFetchAbsolute resEmptyMessage =
        .error "\x7b\"message\":\"\"\x7d" by
      simp [apiFetchAbsolute, resEmptyMessage, failMessage, responseData,
        jsAnd, jsOr, jsGet, jsTruthy, jsString]] at h
    simp at h

/-- C2: for every success response with a non-empty body, a failed JSON parse
makes the adapter return the raw body text as the result (no exception), and
a successful parse makes it return the parsed value. -/
theorem apiFetch_parse_fallback (res : HttpResponse) (hok : res.ok = true)
    (htext : res.text ≠ "") :
    (res.parse = none → apiFetchAbsolute res = .ok (.str res.text)) ∧
    (∀ v, res.parse = some v → apiFetchAbsolute res = .ok v) := by
  constructor
  · intro hp; simp [apiFetchAbsolute, hok, responseData, htext, hp]
  · intro v hp; simp [apiFetchAbsolute, hok, responseData, htext, hp]

/-- Concrete success response whose body is not valid JSON. -/
def resMalformed : HttpResponse :=
  { ok := true, status := 200, text := "oops", parse := none }

/-- Witness for the parse fallback: the malformed success body comes back as
the raw text `oops`. -/
theorem apiFetch_parse_fallback_witness :
    apiFetchAbsolute resMalformed = .ok (.str "oops") :=
  (apiFetch_parse_fallback resMalformed rfl (by decide)).1 rfl

/-- C10: a success response with an empty body returns `null` — not the empty
string value — and the adapter's result never depends on the JSON parse
outcome when the body is empty, i.e. parsing is attempted only on non-empty
bodies. -/
theorem apiFetch_empty_body (res : HttpResponse) (htext : res.text = "") :
    (res.ok = true → apiFetchAbsolute res = .ok .null) ∧
    JsValue.null ≠ .str "" ∧
    (∀ p, apiFetchAbsolute { res with parse := p } =
      apiFetchAbsolute { res with parse := none }) := by
  refine ⟨?_, fun h => JsValue.noConfusion h, ?_⟩
  · intro hok
    simp [apiFetchAbsolute, hok, responseData, htext]
  · intro p
    simp [apiFetchAbsolute, responseData, failMessage, htext]

/-- Concrete empty-bodied success response (e.g. HTTP 204). -/
def resEmpty : HttpResponse :=
  { ok := true, status := 204, text := "", parse := none }

/-- Witness for the empty-body behaviour: the empty success body returns
`null`. -/
theorem apiFetch_empty_body_witness :
    apiFetchAbsolute resEmpty = .ok .null :=
  (apiFetch_empty_body resEmpty rfl).1 rfl

/-- C9: the encoder returns the whole read result when it contains no comma,
and exactly the substring after the first comma when it does; in particular a
read yielding `data:text/plain;base64,AAAA` encodes to `AAAA`. -/
theorem readFileAsBase64_strip (s a b : String) :
    ((∀ c ∈ s.data, c ≠ ',') → readResultToBase64 s = s) ∧
    ((∀ c ∈ a.data, c ≠ ',') → readResultToBase64 (a ++ "," ++ b) = b) ∧
    readFileAsBase64 (.ok (some "data:text/plain;base64,AAAA")) = .ok "AAAA" := by
  refine ⟨?_, ?_, rfl⟩
  · intro h
    simp [readResultToBase64, findIdx_comma_none s.data h]
  · intro h
    have hdata : (a ++ "," ++ b).data = a.data ++ ',' :: b.data := by
      simp [String.data_append]
    have hfind := findIdx_comma_split a.data b.data h 0
    rw [Nat.zero_add] at hfind
    have hdrop : (a.data ++ ',' :: b.data).drop (a.data.length + 1) = b.data := by
      rw [← List.drop_drop, List.drop_left]
      rfl
    simp only [readResultToBase64, hdata, hfind, Int.toNat_natCast,
      Int.natCast_nonneg, if_true]
    rw [hdrop]

/-- Witness for the encoder: a comma-free read result is returned whole, and
the standard data-URL prefix is stripped. -/
theorem readFileAsBase64_strip_witness :
    readResultToBase64 "nocomma" = "nocomma" ∧
    readResultToBase64 ("data:text/plain;base64" ++ "," ++ "AAAA") = "AAAA" :=
  ⟨(readFileAsBase64_strip "nocomma" "" "").1 (by decide),
   (readFileAsBase64_strip "x" "data:text/plain;base64" "AAAA").2.1 (by decide)⟩

/-- C4 (amended): a bare array `a`, `{entries: a}` and `{value: a}` all
normalize to the same sequence `a`; a response matching none of the three
shapes is stored as the empty sequence — unless it is a non-array value whose
`entries` property is truthy, which is stored as-is, or, failing that, whose
`value` property is truthy, which is stored as-is. (Amendment: the source
falls back through `data?.entries || data?.value || []` by JS truthiness, so
a truthy non-array `entries`/`value` value is stored, not replaced by the
empty sequence.) -/
theorem loadEntries_normalization :
    (∀ a : List JsValue,
      normalizeList (.arr a) = .arr a ∧
      normalizeList (.obj [("entries", .arr a)]) = .arr a ∧
      normalizeList (.obj [("value", .arr a)]) = .arr a) ∧
    (∀ data : JsValue, isArray data = false →
      jsTruthy (jsGet data "entries") = false →
      jsTruthy (jsGet data "value") = false →
      normalizeList data = .arr []) ∧
    (∀ data : JsValue, isArray data = false →
      jsTruthy (jsGet data "entries") = true →
      normalizeList data = jsGet data "entries") ∧
    (∀ data : JsValue, isArray data = false →
      jsTruthy (jsGet data "entries") = false →
      jsTruthy (jsGet data "value") = true →
      normalizeList data = jsGet data "value") := by
  refine ⟨fun a => ⟨rfl, rfl, rfl⟩, ?_, ?_, ?_⟩
  · intro data h1 h2 h3
    simp [normalizeList, h1, jsOr, h2, h3]
  · intro data h1 h2
    simp [normalizeList, h1, jsOr, h2]
  · intro data h1 h2 h3
    simp [normalizeList, h1, jsOr, h2, h3]

/-- Witness for the list normalization: a bare array survives and a plain
number normalizes to the empty sequence. -/
theorem loadEntries_normalization_witness :
    normalizeList (.arr [.str "e"]) = .arr [.str "e"] ∧
    normalizeList (.num 7) = .arr [] :=
  ⟨(loadEntries_normalization.1 [.str "e"]).1,
   loadEntries_normalization.2.1 (.num 7) rfl rfl rfl⟩

/-- C4 counterexample: the response `{entries: "x"}` matches none of the
three accepted shapes (its `entries` is not an array), yet the stored value
is `"x"`, not the empty sequence. -/
theorem loadEntries_normalization_counterexample :
    normalizeList (.obj [("entries", .str "x")]) = .str "x" ∧
    JsValue.str "x" ≠ .arr [] :=
  ⟨rfl, fun h => nomatch h⟩

/-- C5: after any sequence of `n` mood appends starting from the empty log,
the log holds exactly `min n 14` records, namely the most recently appended
ones in newest-first order (`items.reverse.take 14`); in particular the log
never exceeds 14 records and a 15th append leaves exactly 14. -/
theorem moodLog_capacity (items : List MoodRecord) :
    moodFold items = items.reverse.take 14 ∧
    (moodFold items).length = min items.length 14 := by
  have h := moodPush_foldl items [] (by simp)
  rw [List.append_nil] at h
  have hm : moodFold items = items.reverse.take 14 := h
  refine ⟨hm, ?_⟩
  rw [hm, List.length_take, List.length_reverse]
  exact Nat.min_comm 14 items.length

/-- C6: for every score in `[1,5]` the mock reply is composed from the low
prompt list iff the score is at most 2, from the neutral list iff it is 3 and
from the good list iff it is at least 4, and identical
(score, userText, lastEntryText) inputs always produce identical reply
text. -/
theorem mockReply_bucketing (mood : Int) (h1 : 1 ≤ mood) (h5 : mood ≤ 5) :
    ((promptsByMood (moodLabel mood) = lowPrompts ↔ mood ≤ 2) ∧
     (promptsByMood (moodLabel mood) = neutralPrompts ↔ mood = 3) ∧
     (promptsByMood (moodLabel mood) = goodPrompts ↔ 4 ≤ mood)) ∧
    (∀ mood' u u' l l', mood = mood' → u = u' → l = l' →
      buildMockReply mood u l = buildMockReply mood' u' l') := by
  constructor
  · interval_cases mood <;> refine ⟨?_, ?_, ?_⟩ <;> decide
  · intro mood' u u' l l' hm hu hl
    subst hm; subst hu; subst hl; rfl

/-- Witness for the bucketing: score 2 selects the low prompts. -/
theorem mockReply_bucketing_witness :
    promptsByMood (moodLabel 2) = lowPrompts :=
  ((mockReply_bucketing 2 (by decide) (by decide)).1.1).mpr (by decide)

/-- C3: the payload built by the create operation carries the three media
fields iff the stored uploaded-file URL is truthy (for a string-valued URL:
iff it is non-empty); when it is falsy all three are absent; and the three
fields are always present or absent together, so no partial media reference
is ever sent. -/
theorem createPayload_media_fields (s : AppState) (now : String) :
    (("filename" ∈ (createPayload s now).map Prod.fst ∧
      "filetype" ∈ (createPayload s now).map Prod.fst ∧
      "fileUrl" ∈ (createPayload s now).map Prod.fst) ↔
      jsTruthy s.uploadedFileUrl = true) ∧
    (jsTruthy s.uploadedFileUrl = false →
      "filename" ∉ (createPayload s now).map Prod.fst ∧
      "filetype" ∉ (createPayload s now).map Prod.fst ∧
      "fileUrl" ∉ (createPayload s now).map Prod.fst) ∧
    ("filename" ∈ (createPayload s now).map Prod.fst ↔
      "fileUrl" ∈ (createPayload s now).map Prod.fst) ∧
    ("filetype" ∈ (createPayload s now).map Prod.fst ↔
      "fileUrl" ∈ (createPayload s now).map Prod.fst) ∧
    (∀ u, s.uploadedFileUrl = .str u →
      ("filename" ∈ (createPayload s now).map Prod.fst ↔ u ≠ "")) := by
  cases htr : jsTruthy s.uploadedFileUrl with
  | true =>
    refine ⟨?_, ?_, ?_, ?_, ?_⟩
    · simp [createPayload, htr]
    · intro h; exact Bool.noConfusion h
    · simp [createPayload, htr]
    · simp [createPayload, htr]
    · intro u hu
      rw [hu] at htr
      simp [jsTruthy] at htr
      simp [createPayload, hu, jsTruthy, htr]
  | false =>
    refine ⟨?_, ?_, ?_, ?_, ?_⟩
    · simp [createPayload, htr]
    · intro _; simp [createPayload, htr]
    · simp [createPayload, htr]
    · simp [createPayload, htr]
    · intro u hu
      rw [hu] at htr
      simp [jsTruthy] at htr
      simp [createPayload, hu, jsTruthy, htr]

/-- The component state as initially rendered (default user id, nothing
uploaded, no entries). -/
def initState : AppState :=
  { userId := "u12345", text := "", visibility := "private", file := none,
    uploadedFileUrl := .str "", uploadedBlobName := .str "", entries := .arr [],
    loadingEntries := false, editingId := none, editText := "",
    editVisibility := "private", status := "", error := "" }

/-- Witness for the media-field invariant: no `fileUrl` field before an
upload, a `fileUrl` field once the stored URL is non-empty. -/
theorem createPayload_media_fields_witness :
    "fileUrl" ∉ (createPayload initState "2026-10-12").map Prod.fst ∧
    "fileUrl" ∈ (createPayload
      { initState with uploadedFileUrl := .str "https://x" }
      "2026-10-12").map Prod.fst :=
  ⟨((createPayload_media_fields initState "2026-10-12").2.1 rfl).2.2,
   (((createPayload_media_fields
      { initState with uploadedFileUrl := .str "https://x" }
      "2026-10-12").1).mpr rfl).2.2⟩

/-- Clearing the messages does not change whether an upload is possible. -/
theorem canUpload_clearMessages (s : AppState) :
    canUpload (clearMessages s) = canUpload s := rfl

/-- C7 (amended): every failure inside any entry-orchestration operation is
caught locally: the handler sets the user-visible error string to the
failure's message — except that the update and delete handlers substitute the
error's default string form (`Error`) when that message is empty — and clears
the in-progress status string. No failure propagates out: each handler is a
total function into a plain new state, and the conjuncts below enumerate
every failure point of every handler (file read, endpoint configuration,
validation, adapter call). -/
theorem handlers_catch_failures (s : AppState) :
    (∀ env : UploadEnv, canUpload s = true →
      (env.readOutcome = .error () →
        (handleUpload s env).1.error = "Failed to read file" ∧
        (handleUpload s env).1.status = "") ∧
      (∀ b m, readFileAsBase64 env.readOutcome = .ok b →
        requireEndpoint env.endpoints.upload "REACT_APP_UPLOAD_URL" = .error m →
        (handleUpload s env).1.error = m ∧
        (handleUpload s env).1.status = "") ∧
      (∀ b u m, readFileAsBase64 env.readOutcome = .ok b →
        requireEndpoint env.endpoints.upload "REACT_APP_UPLOAD_URL" = .ok u →
        callApi env.uploadTransport = .error m →
        (handleUpload s env).1.error = m ∧
        (handleUpload s env).1.status = "")) ∧
    (∀ env : CreateEnv,
      (s.userId = "" →
        (handleCreateEntry s env).1.error = "userId is required" ∧
        (handleCreateEntry s env).1.status = "") ∧
      (s.userId ≠ "" → jsTrim s.text = "" →
        (handleCreateEntry s env).1.error = "Journal text is required" ∧
        (handleCreateEntry s env).1.status = "") ∧
      (∀ m, s.userId ≠ "" → jsTrim s.text ≠ "" →
        requireEndpoint env.endpoints.create "REACT_APP_CREATE_URL" = .error m →
        (handleCreateEntry s env).1.error = m ∧
        (handleCreateEntry s env).1.status = "") ∧
      (∀ u m, s.userId ≠ "" → jsTrim s.text ≠ "" →
        requireEndpoint env.endpoints.create "REACT_APP_CREATE_URL" = .ok u →
        callApi env.createTransport = .error m →
        (handleCreateEntry s env).1.error = m ∧
        (handleCreateEntry s env).1.status = "")) ∧
    (∀ env : ListEnv,
      (s.userId = "" →
        (handleLoadEntries s env).1.error = "userId is required" ∧
        (handleLoadEntries s env).1.status = "" ∧
        (handleLoadEntries s env).1.loadingEntries = false) ∧
      (∀ m, s.userId ≠ "" →
        requireEndpoint env.endpoints.get "REACT_APP_GET_URL" = .error m →
        (handleLoadEntries s env).1.error = m ∧
        (handleLoadEntries s env).1.status = "" ∧
        (handleLoadEntries s env).1.loadingEntries = false) ∧
      (∀ u m, s.userId ≠ "" →
        requireEndpoint env.endpoints.get "REACT_APP_GET_URL" = .ok u →
        callApi env.getTransport = .error m →
        (handleLoadEntries s env).1.error = m ∧
        (handleLoadEntries s env).1.status = "" ∧
        (handleLoadEntries s env).1.loadingEntries = false)) ∧
    (∀ env : UpdateEnv, ∀ eid : Option String,
      (eid.getD "" = "" →
        (handleUpdate s eid env).1.error = "Missing entryId" ∧
        (handleUpdate s eid env).1.status = "") ∧
      (∀ m, eid.getD "" ≠ "" →
        requireEndpoint env.endpoints.update "REACT_APP_UPDATE_URL" = .error m →
        (handleUpdate s eid env).1.error = jsOrStr m (errorToString m) ∧
        (handleUpdate s eid env).1.status = "") ∧
      (∀ u m, eid.getD "" ≠ "" →
        requireEndpoint env.endpoints.update "REACT_APP_UPDATE_URL" = .ok u →
        callApi env.updateTransport = .error m →
        (handleUpdate s eid env).1.error = jsOrStr m (errorToString m) ∧
        (handleUpdate s eid env).1.status = "")) ∧
    (∀ env : DeleteEnv, ∀ eid : Option String,
      (eid.getD "" = "" →
        (handleDelete s eid env).1.error = "Missing entryId" ∧
        (handleDelete s eid env).1.status = "") ∧
      (∀ m, eid.getD "" ≠ "" →
        requireEndpoint env.endpoints.del "REACT_APP_DELETE_URL" = .error m →
        (handleDelete s eid env).1.error = jsOrStr m (errorToString m) ∧
        (handleDelete s eid env).1.status = "") ∧
      (∀ u m, eid.getD "" ≠ "" →
        requireEndpoint env.endpoints.del "REACT_APP_DELETE_URL" = .ok u →
        callApi env.deleteTransport = .error m →
        (handleDelete s eid env).1.error = jsOrStr m (errorToString m) ∧
        (handleDelete s eid env).1.status = "")) := by
  refine ⟨?_, ?_, ?_, ?_, ?_⟩
  · intro env hcan
    simp only [canUpload, Bool.and_eq_true, bne_iff_ne] at hcan
    obtain ⟨h1, h2⟩ := hcan
    refine ⟨?_, ?_, ?_⟩
    · intro hread
      simp [handleUpload, clearMessages, canUpload, h1, h2,
        readFileAsBase64, hread, setCatch]
    · intro b m hread hreq
      simp [handleUpload, clearMessages, canUpload, h1, h2, hread, hreq,
        setCatch]
    · intro b u m hread hreq hcall
      simp [handleUpload, clearMessages, canUpload, h1, h2, hread, hreq,
        hcall, setCatch]
  · intro env
    refine ⟨?_, ?_, ?_, ?_⟩
    · intro hid
      simp [handleCreateEntry, clearMessages, hid, setCatch]
    · intro hid htext
      simp [handleCreateEntry, clearMessages, hid, htext, setCatch]
    · intro m hid htext hreq
      simp [handleCreateEntry, clearMessages, hid, htext, hreq, setCatch]
    · intro u m hid htext hreq hcall
      simp [handleCreateEntry, clearMessages, hid, htext, hreq, hcall,
        setCatch]
  · intro env
    refine ⟨?_, ?_, ?_⟩
    · intro hid
      simp [handleLoadEntries, clearMessages, hid, setCatch]
    · intro m hid hreq
      simp [handleLoadEntries, clearMessages, hid, hreq, setCatch]
    · intro u m hid hreq hcall
      simp [handleLoadEntries, clearMessages, hid, hreq, hcall, setCatch]
  · intro env eid
    refine ⟨?_, ?_, ?_⟩
    · intro hid
      simp [handleUpdate, clearMessages, hid, setCatchUD, jsOrStr,
        errorToString]
    · intro m hid hreq
      simp [handleUpdate, clearMessages, hid, hreq, setCatchUD]
    · intro u m hid hreq hcall
      simp [handleUpdate, clearMessages, hid, hreq, hcall, setCatchUD]
  · intro env eid
    refine ⟨?_, ?_, ?_⟩
    · intro hid
      simp [handleDelete, clearMessages, hid, setCatchUD, jsOrStr,
        errorToString]
    · intro m hid hreq
      simp [handleDelete, clearMessages, hid, hreq, setCatchUD]
    · intro u m hid hreq hcall
      simp [handleDelete, clearMessages, hid, hreq, hcall, setCatchUD]

/-- An endpoint configuration with every URL unset. -/
def noEndpoints : Endpoints :=
  { upload := none, create := none, get := none, update := none, del := none }

/-- Witness for the catch policy: a list reload against an unset get endpoint
reports the configuration message and clears status and loading flag. -/
theorem handlers_catch_failures_witness :
    (handleLoadEntries initState
      { endpoints := noEndpoints, getTransport := .error "net down" }).1.error =
        "Missing REACT_APP_GET_URL URL in .env" ∧
    (handleLoadEntries initState
      { endpoints := noEndpoints, getTransport := .error "net down" }).1.status = "" ∧
    (handleLoadEntries initState
      { endpoints := noEndpoints, getTransport := .error "net down" }).1.loadingEntries
      = false :=
  ((handlers_catch_failures initState).2.2.1
    { endpoints := noEndpoints, getTransport := .error "net down" }).2.1
    "Missing REACT_APP_GET_URL URL in .env" (by decide) rfl

/-- An endpoint configuration with every URL set. -/
def allEndpoints : Endpoints :=
  { upload := some "https://u", create := some "https://c",
    get := some "https://g", update := some "https://up",
    del := some "https://d" }

/-- Failed response whose declared `message` is the empty array, making the
raised error's message the empty string (`String([])` is `""`). -/
def resEmptyArrayMessage : HttpResponse :=
  { ok := false, status := 500, text := "\x7b\"message\":[]\x7d",
    parse := some (.obj [("message", .arr [])]) }

/-- Update environment whose update call fails with an empty-message error. -/
def cexUpdateEnv : UpdateEnv :=
  { endpoints := allEndpoints, updateTransport := .ok resEmptyArrayMessage,
    listTransport := .error "unused" }

/-- C7 counterexample: an update failure whose message is empty sets the
user-visible error string to `Error` (the error's default string form), not
to the failure's message. -/
theorem handlers_catch_failures_counterexample :
    callApi cexUpdateEnv.updateTransport = .error "" ∧
    (handleUpdate initState (some "e1") cexUpdateEnv).1.error = "Error" ∧
    (handleUpdate initState (some "e1") cexUpdateEnv).1.error ≠ "" :=
  ⟨rfl, rfl, by decide⟩

/-- C8 (amended): when a required endpoint URL is unset and the operation's
synchronous validation passes, the operation fails with the configuration
error naming the missing variable and issues no network request; the create,
list, update and delete operations raise it before performing any I/O at all
(their effect trace is empty), while the upload operation performs its local
file read first — when that read succeeds, the configuration error is still
raised, with the file read as the only performed effect. -/
theorem endpoint_missing_config_error (s : AppState) :
    (∀ env : UploadEnv, canUpload s = true →
      env.endpoints.upload.getD "" = "" →
      ∀ b, readFileAsBase64 env.readOutcome = .ok b →
        (handleUpload s env).1.error =
          "Missing REACT_APP_UPLOAD_URL URL in .env" ∧
        (handleUpload s env).1.status = "" ∧
        (handleUpload s env).2 = [.fileRead] ∧
        ∀ e ∈ (handleUpload s env).2, e.isNetworkCall = false) ∧
    (∀ env : CreateEnv, s.userId ≠ "" → jsTrim s.text ≠ "" →
      env.endpoints.create.getD "" = "" →
      (handleCreateEntry s env).1.error =
        "Missing REACT_APP_CREATE_URL URL in .env" ∧
      (handleCreateEntry s env).1.status = "" ∧
      (handleCreateEntry s env).2 = []) ∧
    (∀ env : ListEnv, s.userId ≠ "" → env.endpoints.get.getD "" = "" →
      (handleLoadEntries s env).1.error =
        "Missing REACT_APP_GET_URL URL in .env" ∧
      (handleLoadEntries s env).1.status = "" ∧
      (handleLoadEntries s env).2 = []) ∧
    (∀ env : UpdateEnv, ∀ eid : Option String, eid.getD "" ≠ "" →
      env.endpoints.update.getD "" = "" →
      (handleUpdate s eid env).1.error =
        "Missing REACT_APP_UPDATE_URL URL in .env" ∧
      (handleUpdate s eid env).1.status = "" ∧
      (handleUpdate s eid env).2 = []) ∧
    (∀ env : DeleteEnv, ∀ eid : Option String, eid.getD "" ≠ "" →
      env.endpoints.del.getD "" = "" →
      (handleDelete s eid env).1.error =
        "Missing REACT_APP_DELETE_URL URL in .env" ∧
      (handleDelete s eid env).1.status = "" ∧
      (handleDelete s eid env).2 = []) := by
  refine ⟨?_, ?_, ?_, ?_, ?_⟩
  · intro env hcan hmiss b hread
    simp only [canUpload, Bool.and_eq_true, bne_iff_ne] at hcan
    obtain ⟨h1, h2⟩ := hcan
    simp [handleUpload, clearMessages, canUpload, h1, h2, hread,
      requireEndpoint, hmiss, setCatch, Effect.isNetworkCall]
  · intro env hid htext hmiss
    simp [handleCreateEntry, clearMessages, hid, htext, requireEndpoint,
      hmiss, setCatch]
  · intro env hid hmiss
    simp [handleLoadEntries, clearMessages, hid, requireEndpoint, hmiss,
      setCatch]
  · intro env eid hid hmiss
    simp [handleUpdate, clearMessages, hid, requireEndpoint, hmiss,
      setCatchUD, jsOrStr, errorToString]
  · intro env eid hid hmiss
    simp [handleDelete, clearMessages, hid, requireEndpoint, hmiss,
      setCatchUD, jsOrStr, errorToString]

/-- State with a non-empty draft text, as required by the create
validation. -/
def draftState : AppState := { initState with text := "Felt okay today" }

/-- Witness for the configuration-error behaviour: creating with the create
endpoint unset reports the message naming `REACT_APP_CREATE_URL` and performs
no I/O. -/
theorem endpoint_missing_config_error_witness :
    (handleCreateEntry draftState
      { endpoints := noEndpoints, createTransport := .error "down",
        listTransport := .error "down", now := "2026-10-12" }).1.error =
      "Missing REACT_APP_CREATE_URL URL in .env" ∧
    (handleCreateEntry draftState
      { endpoints := noEndpoints, createTransport := .error "down",
        listTransport := .error "down", now := "2026-10-12" }).2 = [] :=
  have h := (endpoint_missing_config_error draftState).2.1
    { endpoints := noEndpoints, createTransport := .error "down",
      listTransport := .error "down", now := "2026-10-12" }
    (by decide) (by decide) rfl
  ⟨h.1, h.2.2⟩

/-- State holding a selected file, ready to upload. -/
def fileState : AppState :=
  { initState with file := some { name := "a.png", type := "image/png" } }

/-- Upload environment with the upload endpoint unset and a succeeding file
read. -/
def cexUploadEnv : UploadEnv :=
  { endpoints := noEndpoints,
    readOutcome := .ok (some "data:image/png;base64,AAAA"),
    uploadTransport := .error "unreachable" }

/-- C8 counterexample: with the upload endpoint unset, the upload operation
raises the configuration error only after performing its local file read —
the effect trace already contains the file read, so I/O does happen before
the error is raised. -/
theorem endpoint_missing_config_error_counterexample :
    (handleUpload fileState cexUploadEnv).1.error =
      "Missing REACT_APP_UPLOAD_URL URL in .env" ∧
    (handleUpload fileState cexUploadEnv).2 = [Effect.fileRead] ∧
    Effect.fileRead ∈ (handleUpload fileState cexUploadEnv).2 :=
  ⟨rfl, rfl, by rw [show (handleUpload fileState cexUploadEnv).2 =
      [Effect.fileRead] from rfl]; exact List.mem_singleton.mpr rfl⟩

end MentalJournal
